import Mathlib

/-!
Verification of the QuackScript tree-walking interpreter
(src/Lib/quackscript/src/interpreter/index.ts).

The evaluator is embedded shallowly: the mutable fields of the TS
Interpreter class (memory, state stack, host stdout and stderr) become an
explicit state record that every evaluation function threads through, and
thrown TS exceptions become an Except layer whose error value travels
together with the state that was current at the throw site (mutations made
before a throw are visible afterwards, exactly as for the TS object
fields).  Recursion through values stored in memory (function bodies) is
not structural, so every evaluation function takes a fuel argument and
burns one unit per call; exhaustion is reported as an internal (non
runtime) error, a modelling artefact never reached by the theorems below.

Parts of the repository that the interpreter uses but that are not under
src/ (the Memory and State classes, DataTypeUtils, the standard library,
the lexer and parser used by imports) are modelled from the specification
and marked as such in their doc comments.  Source positions, which the TS
nodes carry purely for diagnostics, are dropped throughout; RuntimeException
is modelled by its message string (quotation marks elided from messages).
-/

namespace QuackScript

/-- Parameter of a function declaration: identifier plus the declared type
name (the TS node stores the type as a node whose value field holds the
name; only the name is kept here). -/
structure Param where
  identifier : String
  dataType : String
deriving Repr, DecidableEq

/-- Declared-type annotation of a declaration.  The TS OptionalDataType
node carries an extra internalType; for plain annotations it is absent. -/
structure DataTypeNode where
  value : String
  internalType : Option String
deriving Repr, DecidableEq

mutual

/-- Runtime values, the tagged variants of the TS Value union.  Numbers are
modelled as rationals (the claims settled here never exercise IEEE-754
specific behaviour such as NaN or infinities). -/
inductive Value where
| numberLit (value : Rat)
| textLit (value : String)
| booleanLit (value : Bool)
| nothingLit
| vector2Lit (x y : Rat)
| vector3Lit (x y z : Rat)
| funcDecl (params : List Param) (body : List StatementBody)
| internalFuncDecl (identifier : String) (params : List Param)

/-- Statement bodies recognised by executeStatement.  The TS StatementNode
wrapper adds only a source position, so statements are identified with
their bodies; DeclarationNode and AssignmentNode fields are inlined. -/
inductive StatementBody where
| declaration (declaratorType : String) (identifier : String)
    (expression : ExpressionBody) (dataType : Option DataTypeNode)
    (optional : Bool)
| assignment (identifier : String) (expression : ExpressionBody)
| expression (e : ExpressionBody)
| returnStatement (value : ExpressionBody)
| ifStatement (condition : ExpressionBody) (trueExpression : List StatementBody)
    (falseExpression : Option (List StatementBody))
| importStatement (path : String)

/-- Expression bodies recognised by executeExpressionNode.  Literal bodies
are the value nodes themselves, as in the TS union.  AccessorExpression is
omitted: its dispatch table (StaticPrimitiveAttributes) lives outside src/
and no claim concerns it. -/
inductive ExpressionBody where
| value (v : Value)
| funcCall (identifier : String) (args : List ExpressionBody)
| identifier (id : String)
| binary (left : BinLeft) (operator : String) (right : ExpressionBody)

/-- Left operand of a binary expression.  The TS code inspects node.left
and treats anything that is not an Identifier as a literal value, so the
embedding offers exactly those two shapes. -/
inductive BinLeft where
| identifier (id : String)
| value (v : Value)

end

/-- Module node: the list of top-level statements. -/
structure ModuleNode where
  statements : List StatementBody

/-- Exceptions thrown by the evaluator: RuntimeException (modelled by its
message), the Return control-flow exception carrying the outcome of the
return statement (a Value or, in TS, possibly undefined, hence Option),
and plain JS Error for internal invariant violations (fuel exhaustion is
mapped here as well since it is not a RuntimeException). -/
inductive Exc where
| runtime (msg : String)
| controlFlow (data : Option Value)
| internal (msg : String)

/-- Memory cell.  Modelled from the spec: the Memory class is not under
src/.  The type field holds the declared type name, the string func or
internalFunc for functions, or the string optional for optional cells
(whose internalType then records the underlying type). -/
structure Cell where
  identifier : String
  declarationType : String
  type : String
  value : Value
  internalType : Option String

/-- One lexical scope: the cells declared in it, most recent first. -/
abbrev Scope := List Cell

/-- Interpreter state: the scope stack (innermost scope first), the State
context stack, and the host output channels as lists of emitted lines. -/
structure St where
  memory : List Scope
  ctxStack : List String
  stdoutLog : List String
  stderrLog : List String

/-- Result of an evaluation step. -/
abbrev Res (α : Type) := Except Exc α

/-- Modelled from the spec: Memory.get searches scopes innermost-outward
and fails with UndefinedIdentifier when the name is absent everywhere. -/
def Memory.get (mem : List Scope) (id : String) : Res Cell :=
  match mem with
  | [] => .error (.runtime "UndefinedIdentifier")
  | sc :: rest =>
    match sc.find? (fun c => c.identifier == id) with
    | some c => .ok c
    | none => Memory.get rest id

/-- Modelled from the spec: Memory.set inserts a cell into the innermost
scope and fails with RedeclarationError when the name already exists in
that scope. -/
def Memory.set (mem : List Scope) (cell : Cell) : Res (List Scope) :=
  match mem with
  | [] => .error (.internal "no scope")
  | sc :: rest =>
    if sc.any (fun c => c.identifier == cell.identifier) then
      .error (.runtime "RedeclarationError")
    else
      .ok ((cell :: sc) :: rest)

/-- Modelled from the spec: helper of Memory.update replacing the value of
the named cell inside one scope, rejecting constants. -/
def Memory.updateCell (sc : Scope) (id : String) (v : Value) : Res Scope :=
  match sc with
  | [] => .error (.runtime "UndefinedIdentifier")
  | c :: rest =>
    if c.identifier = id then
      if c.declarationType = "constant" then
        .error (.runtime "AssignToConstant")
      else
        .ok ({ c with value := v } :: rest)
    else
      match Memory.updateCell rest id v with
      | .error e => .error e
      | .ok r => .ok (c :: r)

/-- Modelled from the spec: Memory.update locates the innermost cell with
the given name and replaces its value.  Following section 9 of the spec,
the source performs no type check on update, so none is modelled. -/
def Memory.update (mem : List Scope) (id : String) (v : Value) : Res (List Scope) :=
  match mem with
  | [] => .error (.runtime "UndefinedIdentifier")
  | sc :: rest =>
    if sc.any (fun c => c.identifier == id) then
      match Memory.updateCell sc id v with
      | .error e => .error e
      | .ok sc2 => .ok (sc2 :: rest)
    else
      match Memory.update rest id v with
      | .error e => .error e
      | .ok r => .ok (sc :: r)

/-- Modelled from the spec: DataTypeUtils.valueToDataType maps a value tag
to the canonical declared type name. -/
def valueToDataType : Value → String
| .numberLit _ => "number"
| .textLit _ => "text"
| .booleanLit _ => "boolean"
| .nothingLit => "nothing"
| .vector2Lit _ _ => "vector2"
| .vector3Lit _ _ _ => "vector3"
| .funcDecl _ _ => "func"
| .internalFuncDecl _ _ => "internalFunc"

/-- Tag string of a value, the TS value.type discriminator. -/
def kindName : Value → String
| .numberLit _ => "NumberLiteral"
| .textLit _ => "TextLiteral"
| .booleanLit _ => "BooleanLiteral"
| .nothingLit => "NothingLiteral"
| .vector2Lit _ _ => "Vector2Literal"
| .vector3Lit _ _ _ => "Vector3Literal"
| .funcDecl _ _ => "FuncDeclaration"
| .internalFuncDecl _ _ => "InternalFuncDeclaration"

/-- Modelled from the spec: DataTypeUtils.convertValueToText renders a
value for printing by the module loop. -/
def convertValueToText : Value → String
| .numberLit q => toString q
| .textLit s => s
| .booleanLit b => cond b "true" "false"
| .nothingLit => "nothing"
| .vector2Lit x y => toString x ++ ", " ++ toString y
| .vector3Lit x y z => toString x ++ ", " ++ toString y ++ ", " ++ toString z
| .funcDecl _ _ => "function"
| .internalFuncDecl id _ => id

/-- Truncation toward zero, the JS convention underlying the remainder
operator. -/
def ratTrunc (q : Rat) : Int :=
  if 0 ≤ q then q.floor else q.ceil

/-- Remainder with the sign convention of the JS percent operator. -/
def ratRem (l r : Rat) : Rat :=
  l - r * ((ratTrunc (l / r) : Int) : Rat)

/-- The parameter list the TS code reads off a called value via
fn.parameters?.params ?? []: empty for values that are not functions. -/
def fnParams : Value → List Param
| .funcDecl ps _ => ps
| .internalFuncDecl _ ps => ps
| _ => []

/-- The body the TS code reads off a called value; for a value that is not
a user function the field is undefined and iterating it crashes with a JS
TypeError, modelled by the none branch at the call site. -/
def fnBody : Value → Option (List StatementBody)
| .funcDecl _ b => some b
| _ => none

/-- Modelled from the spec: executeInternalFunc of the standard library is
outside src/ and section 6.4 does not enumerate the registry, so dispatch
by name finds no routine here.  No claim exercises internal functions. -/
def executeInternalFunc (_fn : Value) (s : St) : Res Value × St :=
  (.error (.runtime "UnknownInternalFunction"), s)

/-- Same-kind dispatch blocks of executeBinaryExpression: some result when
one of the three typed blocks returns or throws, none when control falls
through to the cross-type check (unmatched operator in the number and text
blocks, or operands that match none of the blocks).  In the boolean block
an unmatched operator throws inside the block and does not fall through,
exactly as in the source. -/
def sameTypeResult (l r : Value) (op : String) : Option (Res Value) :=
  match l, r with
  | .booleanLit a, .booleanLit b =>
    match op with
    | "!=" => some (.ok (.booleanLit (a != b)))
    | "&&" => some (.ok (.booleanLit (a && b)))
    | "==" => some (.ok (.booleanLit (a == b)))
    | "||" => some (.ok (.booleanLit (a || b)))
    | _ => some (.error (.runtime "Unable to parse binary expression"))
  | .numberLit a, .numberLit b =>
    match op with
    | "!=" => some (.ok (.booleanLit (decide (a ≠ b))))
    | "%" => some (.ok (.numberLit (ratRem a b)))
    | "*" => some (.ok (.numberLit (a * b)))
    | "-" => some (.ok (.numberLit (a - b)))
    | "+" => some (.ok (.numberLit (a + b)))
    | "/" => some (.ok (.numberLit (a / b)))
    | "<" => some (.ok (.booleanLit (decide (a < b))))
    | "<=" => some (.ok (.booleanLit (decide (a ≤ b))))
    | ">=" => some (.ok (.booleanLit (decide (b ≤ a))))
    | "==" => some (.ok (.booleanLit (decide (a = b))))
    | ">" => some (.ok (.booleanLit (decide (b < a))))
    | _ => none
  | .textLit a, .textLit b =>
    match op with
    | "!=" => some (.ok (.booleanLit (decide (a ≠ b))))
    | "==" => some (.ok (.booleanLit (decide (a = b))))
    | "+" => some (.ok (.textLit (a ++ b)))
    | _ => none
  | _, _ => none

/-- Scope and State frame release performed on the successful exits of
executeFunctionCall (Memory.clearScope and State.pop of the source). -/
def releaseFrame (s : St) : St :=
  { s with memory := s.memory.tail, ctxStack := s.ctxStack.tail }

mutual

/-- Statement dispatch of the source executeStatement: declarations,
assignments and if statements yield no value (none), expression and return
statements yield the value of their expression, and a non-top-level
ImportStatement raises. -/
def executeStatement : Nat → StatementBody → St → Res (Option Value) × St
| 0, _, s => (.error (.internal "out of fuel"), s)
| fuel + 1, st, s =>
  match st with
  | .declaration dk id e dt opt =>
    match executeDeclaration fuel dk id e dt opt s with
    | (.error er, s1) => (.error er, s1)
    | (.ok _, s1) => (.ok none, s1)
  | .assignment id e =>
    match executeAssignment fuel id e s with
    | (.error er, s1) => (.error er, s1)
    | (.ok _, s1) => (.ok none, s1)
  | .expression e =>
    match executeExpressionNode fuel e s with
    | (.error er, s1) => (.error er, s1)
    | (.ok v, s1) => (.ok (some v), s1)
  | .returnStatement e =>
    match executeExpressionNode fuel e s with
    | (.error er, s1) => (.error er, s1)
    | (.ok v, s1) => (.ok (some v), s1)
  | .ifStatement c t f =>
    match executeIfStatementNode fuel c t f s with
    | (.error er, s1) => (.error er, s1)
    | (.ok _, s1) => (.ok none, s1)
  | .importStatement _ =>
    (.error (.runtime "Import statements must be at the top of the file"), s)

/-- Declaration per the source executeDeclaration: evaluate the right-hand
side, resolve the type from the annotation or by inference, and store the
cell; an optional declaration stores type optional with the internal type
taken from the annotation when present.  The source performs no check of
the value kind against the resolved type and no rejection of
NothingLiteral for non-optional declarations. -/
def executeDeclaration : Nat → String → String → ExpressionBody →
    Option DataTypeNode → Bool → St → Res Unit × St
| 0, _, _, _, _, _, s => (.error (.internal "out of fuel"), s)
| fuel + 1, dk, id, e, dt, opt, s =>
  match executeExpressionNode fuel e s with
  | (.error er, s1) => (.error er, s1)
  | (.ok value, s1) =>
    let type0 := match dt with
      | some d => d.value
      | none => valueToDataType value
    if opt then
      let type1 := match dt with
        | some d => d.internalType.getD type0
        | none => type0
      match Memory.set s1.memory ⟨id, dk, "optional", value, some type1⟩ with
      | .error er => (.error er, s1)
      | .ok mem => (.ok (), { s1 with memory := mem })
    else
      match Memory.set s1.memory ⟨id, dk, type0, value, none⟩ with
      | .error er => (.error er, s1)
      | .ok mem => (.ok (), { s1 with memory := mem })

/-- Assignment per the source executeAssignment: evaluate the right-hand
side and update the cell in place.  The null guard of the source protects
a structurally impossible case and is unrepresentable here. -/
def executeAssignment : Nat → String → ExpressionBody → St → Res Unit × St
| 0, _, _, s => (.error (.internal "out of fuel"), s)
| fuel + 1, id, e, s =>
  match executeExpressionNode fuel e s with
  | (.error er, s1) => (.error er, s1)
  | (.ok v, s1) =>
    match Memory.update s1.memory id v with
    | .error er => (.error er, s1)
    | .ok mem => (.ok (), { s1 with memory := mem })

/-- If statement per the source executeIfStatementNode: only a true
boolean selects the true block, false and nothing select the false block
when present, and every other value kind raises the runtime error whose
source message is Invalid boolean expression. -/
def executeIfStatementNode : Nat → ExpressionBody → List StatementBody →
    Option (List StatementBody) → St → Res Unit × St
| 0, _, _, _, s => (.error (.internal "out of fuel"), s)
| fuel + 1, c, tb, fb, s =>
  match executeExpressionNode fuel c s with
  | (.error er, s1) => (.error er, s1)
  | (.ok v, s1) =>
    match v with
    | .booleanLit true => executeCodeBlock fuel tb s1
    | .booleanLit false =>
      match fb with
      | some b => executeCodeBlock fuel b s1
      | none => (.ok (), s1)
    | .nothingLit =>
      match fb with
      | some b => executeCodeBlock fuel b s1
      | none => (.ok (), s1)
    | _ => (.error (.runtime "Invalid boolean expression"), s1)

/-- Code block per the source executeCodeBlock: run the statements in
order; after running a statement whose body is a ReturnStatement, throw
the Return control-flow exception carrying the outcome. -/
def executeCodeBlock : Nat → List StatementBody → St → Res Unit × St
| 0, _, s => (.error (.internal "out of fuel"), s)
| fuel + 1, stmts, s =>
  match stmts with
  | [] => (.ok (), s)
  | st :: rest =>
    match executeStatement fuel st s with
    | (.error er, s1) => (.error er, s1)
    | (.ok outcome, s1) =>
      match st with
      | .returnStatement _ => (.error (.controlFlow outcome), s1)
      | _ => executeCodeBlock fuel rest s1

/-- Function call per the source executeFunctionCall.  The State frame and
the new scope are pushed before the arity check and the argument loop; the
release at the end runs only on the two successful exits (normal
completion and a caught Return), so a propagated runtime error leaves both
frames in place, exactly as in the source where the throw skips the
trailing clearScope and pop. -/
def executeFunctionCall : Nat → String → List ExpressionBody → St → Res Value × St
| 0, _, _, s => (.error (.internal "out of fuel"), s)
| fuel + 1, id, args, s =>
  match Memory.get s.memory id with
  | .error er => (.error er, s)
  | .ok memoryValue =>
    if memoryValue.type ≠ "func" ∧ memoryValue.type ≠ "internalFunc" then
      (.error (.runtime ("Tried to call variable " ++ id ++ " as a function")), s)
    else if kindName memoryValue.value = "NothingLiteral" then
      (.error (.runtime "Tried to call nothing as a function"), s)
    else
      let fn := memoryValue.value
      let s1 := { s with ctxStack := "function" :: s.ctxStack,
                         memory := [] :: s.memory }
      let params := fnParams fn
      if params.length ≠ args.length then
        (.error (.runtime ("Expecting " ++ toString params.length ++
          " arguments but got " ++ toString args.length ++ " arguments")), s1)
      else
        match bindArgs fuel params args s1 with
        | (.error er, s2) => (.error er, s2)
        | (.ok _, s2) =>
          if memoryValue.type = "internalFunc" then
            match executeInternalFunc fn s2 with
            | (.error er, s3) => (.error er, s3)
            | (.ok rv, s3) => (.ok rv, releaseFrame s3)
          else
            match fnBody fn with
            | none => (.error (.internal "TypeError: body is not iterable"), s2)
            | some body =>
              match executeCodeBlock fuel body s2 with
              | (.ok _, s3) => (.ok .nothingLit, releaseFrame s3)
              | (.error (.controlFlow d), s3) =>
                (.ok (d.getD .nothingLit), releaseFrame s3)
              | (.error er, s3) => (.error er, s3)

/-- Argument binding loop of executeFunctionCall: evaluate each argument
in the already-pushed scope, check its type name against the declared
parameter type, and bind the parameter as an argument cell before moving
to the next argument. -/
def bindArgs : Nat → List Param → List ExpressionBody → St → Res Unit × St
| 0, _, _, s => (.error (.internal "out of fuel"), s)
| fuel + 1, params, args, s =>
  match params, args with
  | [], _ => (.ok (), s)
  | _ :: _, [] => (.error (.internal "index out of bounds"), s)
  | p :: ps, a :: rest =>
    match executeExpressionNode fuel a s with
    | (.error er, s1) => (.error er, s1)
    | (.ok argResult, s1) =>
      let dataType := valueToDataType argResult
      if dataType ≠ p.dataType then
        (.error (.runtime ("Expected argument of type " ++ p.dataType ++
          " but got " ++ dataType)), s1)
      else
        match Memory.set s1.memory ⟨p.identifier, "argument", p.dataType, argResult, none⟩ with
        | .error er => (.error er, s1)
        | .ok mem => bindArgs fuel ps rest { s1 with memory := mem }

/-- Expression dispatch per the source executeExpressionNode: a literal
body is returned as is, identifiers resolve through memory, calls and
binary expressions dispatch to their evaluators. -/
def executeExpressionNode : Nat → ExpressionBody → St → Res Value × St
| 0, _, s => (.error (.internal "out of fuel"), s)
| fuel + 1, e, s =>
  match e with
  | .value v => (.ok v, s)
  | .funcCall id args => executeFunctionCall fuel id args s
  | .identifier id =>
    match Memory.get s.memory id with
    | .error er => (.error er, s)
    | .ok cell => (.ok cell.value, s)
  | .binary l op r => executeBinaryExpression fuel l op r s

/-- Binary expression per the source executeBinaryExpression: the right
operand is evaluated first and rejected when callable; a left identifier
is resolved through memory and rejected when its cell is a function, any
other left node is used as a literal value.  Then the three same-kind
blocks run, and on fall-through the source condition
(kinds differ and op is bang-equal) or op is equal-equal
is evaluated with exactly that parenthesisation before the final throw. -/
def executeBinaryExpression : Nat → BinLeft → String → ExpressionBody → St → Res Value × St
| 0, _, _, _, s => (.error (.internal "out of fuel"), s)
| fuel + 1, left, op, right, s =>
  match executeExpressionNode fuel right s with
  | (.error er, s1) => (.error er, s1)
  | (.ok rightValue, s1) =>
    match rightValue with
    | .funcDecl _ _ => (.error (.runtime "Invalid binary expression"), s1)
    | .internalFuncDecl _ _ => (.error (.runtime "Invalid binary expression"), s1)
    | _ =>
      let finish : Value → Res Value × St := fun lv =>
        match sameTypeResult lv rightValue op with
        | some (.error er) => (.error er, s1)
        | some (.ok v) => (.ok v, s1)
        | none =>
          if (kindName lv ≠ kindName rightValue ∧ op = "!=") ∨ op = "==" then
            (.ok (.booleanLit (decide (op = "!="))), s1)
          else
            (.error (.runtime "Unable to parse binary expression"), s1)
      match left with
      | .identifier lid =>
        match Memory.get s1.memory lid with
        | .error er => (.error er, s1)
        | .ok cell =>
          if cell.type = "func" ∨ cell.type = "internalFunc" then
            (.error (.runtime "Invalid binary expression"), s1)
          else
            finish cell.value
      | .value v => finish v

end

/-- Modelled from the spec: executeImportNode re-enters the lexer and
parser, which are outside src/; with the default host of section 6.1,
loadFile fails with ImportUnsupported, a RuntimeError. -/
def executeImportNode (_fuel : Nat) (_path : String) (s : St) : Res Unit × St :=
  (.error (.runtime "ImportUnsupported"), s)

/-- Leading-import loop of the source executeAllTopImports: execute import
statements until the first non-import statement and return the list of
imports executed (their paths stand in for the nodes). -/
def executeAllTopImports : Nat → List StatementBody → St → Res (List String) × St
| _, [], s => (.ok [], s)
| fuel, st :: rest, s =>
  match st with
  | .importStatement path =>
    match executeImportNode fuel path s with
    | (.error er, s1) => (.error er, s1)
    | (.ok _, s1) =>
      match executeAllTopImports fuel rest s1 with
      | (.error er, s2) => (.error er, s2)
      | (.ok l, s2) => (.ok (path :: l), s2)
  | _ => (.ok [], s)

/-- Statement loop of the source executeModule: run each statement and,
when it yields a value that is not NothingLiteral, emit its text on the
host stdout. -/
def executeModuleStatements : Nat → List StatementBody → St → Res Unit × St
| _, [], s => (.ok (), s)
| fuel, st :: rest, s =>
  match executeStatement fuel st s with
  | (.error er, s1) => (.error er, s1)
  | (.ok output, s1) =>
    let s2 := match output with
      | some v =>
        if kindName v ≠ "NothingLiteral" then
          { s1 with stdoutLog := s1.stdoutLog ++ [convertValueToText v] }
        else s1
      | none => s1
    executeModuleStatements fuel rest s2

/-- Module execution per the source executeModule.  The TS code calls
statements.splice(count) with count the number of executed leading
imports, which removes every statement from index count onward from the
module node and returns the removed tail for execution; the mutation of
the caller-visible node is made explicit here by returning the module as
it stands after the call (splice leaves only the leading imports). -/
def executeModule (fuel : Nat) (m : ModuleNode) (s : St) :
    (Res Unit × ModuleNode) × St :=
  match executeAllTopImports fuel m.statements s with
  | (.error er, s1) => ((.error er, m), s1)
  | (.ok imported, s1) =>
    let count := imported.length
    let statementsToExecute := m.statements.drop count
    let m2 : ModuleNode := ⟨m.statements.take count⟩
    match executeModuleStatements fuel statementsToExecute s1 with
    | (.error er, s2) => ((.error er, m2), s2)
    | (.ok _, s2) => ((.ok (), m2), s2)

/-- Public entry point per the source execute: clear the memory to a single
empty global scope, run the module, route a RuntimeException to the host
stderr and return normally, and re-raise every other exception unchanged.
The trailing printMemory of the source writes to the developer console,
not to the host stdout, and is therefore invisible here. -/
def execute (fuel : Nat) (m : ModuleNode) (s : St) :
    (Res Unit × ModuleNode) × St :=
  let s0 := { s with memory := [[]] }
  match executeModule fuel m s0 with
  | ((.error (.runtime msg), m1), s1) =>
    ((.ok (), m1), { s1 with stderrLog := s1.stderrLog ++ [msg] })
  | ((.error er, m1), s1) => ((.error er, m1), s1)
  | ((.ok _, m1), s1) => ((.ok (), m1), s1)

/-! Concrete programs and auxiliary predicates used by the theorems. -/

/-- Interpreter state with one empty global scope and no output. -/
def emptySt : St := ⟨[[]], [], [], []⟩

/-- State whose global scope binds f to a one-parameter function with an
empty body, for exercising the arity check. -/
def c1State : St :=
  ⟨[[⟨"f", "constant", "func", .funcDecl [⟨"a", "number"⟩] [], none⟩]], [], [], []⟩

/-- Module with a single top-level if statement whose true branch is a
return statement. -/
def c3Module : ModuleNode :=
  ⟨[.ifStatement (.value (.booleanLit true))
      [.returnStatement (.value (.numberLit 5))] none]⟩

/-- Module with one top-level expression statement and no imports. -/
def c4Module : ModuleNode := ⟨[.expression (.value (.textLit "hi"))]⟩

/-- Module whose only statement assigns to an undeclared identifier,
producing a runtime error. -/
def c8Module : ModuleNode := ⟨[.assignment "x" (.value (.numberLit 1))]⟩

/-- Caller state for the argument-shadowing scenario: the global scope
binds f to a two-parameter function returning its second parameter, and
binds the name a, which coincides with the first parameter of f, to an
arbitrary value v. -/
def c9State (v : Value) : St :=
  ⟨[[⟨"f", "constant", "func",
      .funcDecl [⟨"a", "number"⟩, ⟨"b", "number"⟩]
        [.returnStatement (.identifier "b")], none⟩,
     ⟨"a", "variable", "number", v, none⟩]], [], [], []⟩

/-- Values that are not functions (callable values are rejected as binary
operands). -/
def notCallable : Value → Prop := fun v =>
  match v with
  | .funcDecl _ _ => False
  | .internalFuncDecl _ _ => False
  | _ => True

/-- Vector values. -/
def isVectorKind : Value → Prop := fun v =>
  match v with
  | .vector2Lit _ _ => True
  | .vector3Lit _ _ _ => True
  | _ => False

/-- Condition kinds that the if statement rejects: everything except
booleans and nothing. -/
def nonBooleanish : Value → Prop := fun v =>
  match v with
  | .booleanLit _ => False
  | .nothingLit => False
  | _ => True

/-- Exceptions that are not RuntimeException. -/
def notRuntime : Exc → Prop := fun e =>
  match e with
  | .runtime _ => False
  | _ => True

/-! Theorems. -/

/-- Helper: when the two operand kinds differ, none of the three same-kind
blocks of executeBinaryExpression fires, so control falls through to the
cross-type check. -/
theorem sameTypeResult_none_of_kind_ne (l r : Value) (op : String)
    (h : kindName l ≠ kindName r) : sameTypeResult l r op = none := by
  cases l <;> cases r <;> simp_all [sameTypeResult, kindName]

/-- Helper: when none of the typed blocks fires, a binary expression with
a literal (non-identifier) left operand and a non-callable right operand
reaches the cross-type check, whose condition carries the exact
parenthesisation of the source. -/
theorem executeBinaryExpression_fallthrough (fuel : Nat) (s s1 : St)
    (right : ExpressionBody) (rv lv : Value) (op : String)
    (hr : executeExpressionNode fuel right s = (.ok rv, s1))
    (hrc : notCallable rv)
    (hn : sameTypeResult lv rv op = none) :
    executeBinaryExpression (fuel + 1) (.value lv) op right s =
      (if (kindName lv ≠ kindName rv ∧ op = "!=") ∨ op = "==" then
        (.ok (.booleanLit (decide (op = "!="))), s1)
       else
        (.error (.runtime "Unable to parse binary expression"), s1)) := by
  cases rv <;> try exact hrc.elim
  all_goals simp [executeBinaryExpression, hr, hn]

/-- C1: the claim states that the scope and the State frame pushed at call
entry are released on every exit path, so the scope-stack depth is equal
before and after the call even when it raises.  The code violates this: a
call of the one-parameter f with zero arguments raises the arity error
after pushing both frames, and the state at the raise retains the extra
scope (depth 2 instead of 1) and the extra State frame (depth 1 instead
of 0), because the throw skips the trailing clearScope and pop. -/
theorem c1_scope_frame_leak_on_arity_error :
    (executeFunctionCall 5 "f" [] c1State).1 =
      .error (.runtime "Expecting 1 arguments but got 0 arguments") ∧
    c1State.memory.length = 1 ∧ c1State.ctxStack.length = 0 ∧
    (executeFunctionCall 5 "f" [] c1State).2.memory.length = 2 ∧
    (executeFunctionCall 5 "f" [] c1State).2.ctxStack.length = 1 :=
  ⟨rfl, rfl, rfl, rfl, rfl⟩

/-- C2 counterexample: the claim states that a declaration whose value
kind differs from the resolved declared type raises TypeMismatch.  The
code performs no such check: declaring x with declared type number and a
text initializer succeeds and stores the text value in the cell. -/
theorem c2_counterexample_no_type_check :
    executeDeclaration 3 "constant" "x" (.value (.textLit "a"))
      (some ⟨"number", none⟩) false emptySt =
    (.ok (), ⟨[[⟨"x", "constant", "number", .textLit "a", none⟩]], [], [], []⟩) :=
  rfl

/-- C3: the claim states that a return outside any function context is
rejected with ReturnOutsideFunction and that the Return signal is never
observable outside a function body.  The code violates this: executing a
module whose only statement is a top-level if statement with a return in
its branch makes the Return control-flow exception unwind past
executeModule and past execute itself, which re-raises it to the host
because it is not a RuntimeException. -/
theorem c3_return_signal_escapes_execute :
    (execute 9 c3Module emptySt).1.1 =
      .error (.controlFlow (some (.numberLit 5))) := rfl

/-- C4: the claim states that executeModule leaves the statements list of
the module node unchanged.  The code violates this: splice removes every
statement after the leading imports from the node, so a one-statement
module without imports comes out of executeModule with an empty
statements list. -/
theorem c4_executeModule_mutates_ast :
    (executeModule 5 c4Module emptySt).1.2.statements = [] ∧
    c4Module.statements.length = 1 := ⟨rfl, rfl⟩

/-- C5 counterexample: the claim states that every operator on vector
operands, including the equality operator, raises
InvalidBinaryExpression.  The code instead returns BooleanLiteral false
for the equality operator on two Vector2 operands, because the
unparenthesised cross-type condition makes the equality branch fire for
every operand combination that falls through the typed blocks. -/
theorem c5_counterexample_vector_eq_returns_false :
    executeBinaryExpression 3 (.value (.vector2Lit 1 2)) "=="
      (.value (.vector2Lit 1 2)) emptySt =
    (.ok (.booleanLit false), emptySt) := rfl

/-- C9: in a function call the arguments are evaluated inside the freshly
pushed scope and each parameter is bound before the next argument is
evaluated, so an argument expression naming an earlier parameter resolves
to the just-bound argument value and not to the caller binding of the
same name: calling f with first argument n and second argument the
identifier a (the name of the first parameter) returns n for every n and
for every caller value v of a, and the call releases its scope and State
frame on this normal path. -/
theorem c9_later_arg_sees_earlier_param (n : Rat) (v : Value) :
    executeFunctionCall 12 "f" [.value (.numberLit n), .identifier "a"]
      (c9State v) =
    (.ok (.numberLit n), c9State v) := rfl

/-- C2 amended: executeDeclaration performs no dynamic type check and no
optionality check: whenever the initializer evaluates to a value v and the
name is fresh in the innermost scope, the declaration succeeds and stores
a cell holding exactly v, for every declared type, every optionality flag
and every value kind, including NothingLiteral under isOptional false; in
particular neither TypeMismatch nor NullToNonOptional is ever raised. -/
theorem c2_declaration_stores_unconditionally (fuel : Nat)
    (dk id : String) (v : Value) (dt : Option DataTypeNode) (opt : Bool)
    (sc : Scope) (rest : List Scope) (ctx so se : List String)
    (h : sc.any (fun c => c.identifier == id) = false) :
    ∃ cell : Cell, cell.identifier = id ∧ cell.value = v ∧
      executeDeclaration (fuel + 2) dk id (.value v) dt opt
        ⟨sc :: rest, ctx, so, se⟩ =
      (.ok (), ⟨(cell :: sc) :: rest, ctx, so, se⟩) := by
  cases opt with
  | false =>
    cases dt with
    | none =>
      refine ⟨⟨id, dk, valueToDataType v, v, none⟩, rfl, rfl, ?_⟩
      simp [executeDeclaration, executeExpressionNode, Memory.set, h]
    | some d =>
      refine ⟨⟨id, dk, d.value, v, none⟩, rfl, rfl, ?_⟩
      simp [executeDeclaration, executeExpressionNode, Memory.set, h]
  | true =>
    cases dt with
    | none =>
      refine ⟨⟨id, dk, "optional", v, some (valueToDataType v)⟩, rfl, rfl, ?_⟩
      simp [executeDeclaration, executeExpressionNode, Memory.set, h]
    | some d =>
      refine ⟨⟨id, dk, "optional", v, some (d.internalType.getD d.value)⟩, rfl, rfl, ?_⟩
      simp [executeDeclaration, executeExpressionNode, Memory.set, h]

/-- C2 witness: a non-optional declaration with declared type number and a
nothing initializer succeeds and stores the nothing value. -/
theorem c2_declaration_stores_unconditionally_witness :
    ∃ cell : Cell, cell.identifier = "x" ∧ cell.value = Value.nothingLit ∧
      executeDeclaration 2 "constant" "x" (.value .nothingLit)
        (some ⟨"number", none⟩) false ⟨[[]], [], [], []⟩ =
      (.ok (), ⟨(cell :: []) :: [], [], [], []⟩) :=
  c2_declaration_stores_unconditionally 0 "constant" "x" .nothingLit
    (some ⟨"number", none⟩) false [] [] [] [] [] rfl

/-- C5 amended: binary expressions whose operands are vector literals
raise the InvalidBinaryExpression runtime error for every operator other
than the two equality operators; the operator equal-equal instead yields
BooleanLiteral false for every pair of vector operands, and bang-equal
yields BooleanLiteral true when the two vector kinds differ while raising
when they coincide. -/
theorem c5_vector_binary_semantics (fuel : Nat) (s : St) (lv rv : Value)
    (op : String) (hl : isVectorKind lv) (hr : isVectorKind rv) :
    (op = "==" →
      executeBinaryExpression (fuel + 2) (.value lv) op (.value rv) s =
        (.ok (.booleanLit false), s)) ∧
    (op = "!=" → kindName lv = kindName rv →
      executeBinaryExpression (fuel + 2) (.value lv) op (.value rv) s =
        (.error (.runtime "Unable to parse binary expression"), s)) ∧
    (op = "!=" → kindName lv ≠ kindName rv →
      executeBinaryExpression (fuel + 2) (.value lv) op (.value rv) s =
        (.ok (.booleanLit true), s)) ∧
    (op ≠ "==" → op ≠ "!=" →
      executeBinaryExpression (fuel + 2) (.value lv) op (.value rv) s =
        (.error (.runtime "Unable to parse binary expression"), s)) := by
  cases lv <;> try exact hl.elim
  all_goals cases rv <;> try exact hr.elim
  all_goals refine ⟨fun h1 => ?_, fun h1 h2 => ?_, fun h1 h2 => ?_, fun h1 h2 => ?_⟩
  all_goals try (subst h1; rfl)
  all_goals first
    | exact absurd h2 (by simp only [kindName]; decide)
    | exact absurd rfl h2
    | simp [executeBinaryExpression, executeExpressionNode, sameTypeResult,
        kindName, h1, h2]

/-- C5 witness: bang-equal on a Vector3 and a Vector2 operand yields
BooleanLiteral true instead of raising. -/
theorem c5_vector_binary_semantics_witness :
    executeBinaryExpression 2 (.value (.vector3Lit 1 2 3)) "!="
      (.value (.vector2Lit 1 2)) emptySt = (.ok (.booleanLit true), emptySt) :=
  (c5_vector_binary_semantics 0 emptySt (.vector3Lit 1 2 3) (.vector2Lit 1 2)
    "!=" trivial trivial).2.2.1 rfl (by decide)

/-- C6: when the right operand evaluates to a value whose kind differs
from the kind of the (non-callable) literal left operand, the binary
expression yields BooleanLiteral false for equal-equal, BooleanLiteral
true for bang-equal, and raises the InvalidBinaryExpression runtime error
for every other operator. -/
theorem c6_cross_type_rule (fuel : Nat) (s s1 : St) (right : ExpressionBody)
    (rv lv : Value) (op : String)
    (hr : executeExpressionNode fuel right s = (.ok rv, s1))
    (_hlc : notCallable lv) (hrc : notCallable rv)
    (hk : kindName lv ≠ kindName rv) :
    executeBinaryExpression (fuel + 1) (.value lv) op right s =
      (if op = "==" ∨ op = "!=" then
        (.ok (.booleanLit (decide (op = "!="))), s1)
       else
        (.error (.runtime "Unable to parse binary expression"), s1)) := by
  rw [executeBinaryExpression_fallthrough fuel s s1 right rv lv op hr hrc
    (sameTypeResult_none_of_kind_ne _ _ _ hk)]
  by_cases h1 : op = "=="
  · simp [h1]
  · by_cases h2 : op = "!="
    · simp [h1, h2, hk]
    · simp [h1, h2]

/-- C6 witness: comparing the text a with the number 3 using equal-equal
yields BooleanLiteral false. -/
theorem c6_cross_type_rule_witness :
    executeBinaryExpression 2 (.value (.textLit "a")) "=="
      (.value (.numberLit 3)) emptySt = (.ok (.booleanLit false), emptySt) := by
  have h := c6_cross_type_rule 1 emptySt emptySt (.value (.numberLit 3))
    (.numberLit 3) (.textLit "a") "==" rfl trivial trivial (by decide)
  simpa using h

/-- C7: a condition evaluating to BooleanLiteral true executes the true
block, a condition evaluating to BooleanLiteral false or NothingLiteral
executes the false block when present and nothing otherwise, and a
condition of any other kind raises the NonBooleanCondition runtime error
(source message Invalid boolean expression), with no coercion. -/
theorem c7_if_statement_semantics (fuel : Nat) (s s1 : St)
    (c : ExpressionBody) (tb : List StatementBody)
    (fb : Option (List StatementBody)) (v : Value)
    (h : executeExpressionNode fuel c s = (.ok v, s1)) :
    (v = .booleanLit true →
      executeIfStatementNode (fuel + 1) c tb fb s = executeCodeBlock fuel tb s1) ∧
    ((v = .booleanLit false ∨ v = .nothingLit) →
      executeIfStatementNode (fuel + 1) c tb fb s =
        (match fb with
         | some b => executeCodeBlock fuel b s1
         | none => (.ok (), s1))) ∧
    (nonBooleanish v →
      executeIfStatementNode (fuel + 1) c tb fb s =
        (.error (.runtime "Invalid boolean expression"), s1)) := by
  refine ⟨?_, ?_, ?_⟩
  · intro hv; subst hv; simp [executeIfStatementNode, h]
  · rintro (hv | hv) <;> subst hv <;> simp [executeIfStatementNode, h]
  · intro hv
    cases v <;> first
      | exact hv.elim
      | simp [executeIfStatementNode, h]

/-- C7 witness: a numeric condition raises the non-boolean-condition
runtime error. -/
theorem c7_if_statement_semantics_witness :
    executeIfStatementNode 2 (.value (.numberLit 1)) [] none emptySt =
      (.error (.runtime "Invalid boolean expression"), emptySt) :=
  (c7_if_statement_semantics 1 emptySt emptySt (.value (.numberLit 1)) [] none
    (.numberLit 1) rfl).2.2 trivial

/-- C8: execute clears the memory, runs the module, catches a
RuntimeException by appending its message to the host stderr and returning
normally, and re-raises every other exception unchanged; a normal module
run returns normally. -/
theorem c8_execute_error_routing (fuel : Nat) (m : ModuleNode) (s : St) :
    (∀ msg m1 s1,
      executeModule fuel m { s with memory := [[]] } =
        ((.error (.runtime msg), m1), s1) →
      execute fuel m s =
        ((.ok (), m1), { s1 with stderrLog := s1.stderrLog ++ [msg] })) ∧
    (∀ e m1 s1,
      executeModule fuel m { s with memory := [[]] } = ((.error e, m1), s1) →
      notRuntime e →
      execute fuel m s = ((.error e, m1), s1)) ∧
    (∀ m1 s1,
      executeModule fuel m { s with memory := [[]] } = ((.ok (), m1), s1) →
      execute fuel m s = ((.ok (), m1), s1)) := by
  refine ⟨?_, ?_, ?_⟩
  · intro msg m1 s1 h; simp [execute, h]
  · intro e m1 s1 h he
    cases e <;> first
      | exact he.elim
      | simp [execute, h]
  · intro m1 s1 h; simp [execute, h]

/-- C8 witness: a module assigning to an undeclared identifier makes
execute report the runtime error on stderr and return normally. -/
theorem c8_execute_error_routing_witness :
    execute 4 c8Module emptySt =
      ((.ok (), ⟨[]⟩), ⟨[[]], [], [], ["UndefinedIdentifier"]⟩) := by
  have h := (c8_execute_error_routing 4 c8Module emptySt).1 "UndefinedIdentifier"
    ⟨[]⟩ ⟨[[]], [], [], []⟩ rfl
  simpa using h

/-- C10: the value of a non-return expression statement inside a code
block is discarded without touching the host stdout (when the statement
itself emits nothing, the block emits nothing), whereas the same
statement at module top level has its non-NothingLiteral value printed on
stdout by the module loop. -/
theorem c10_block_discards_values_module_prints (fuel : Nat) (s s1 : St)
    (e : ExpressionBody) (v : Value)
    (h : executeStatement (fuel + 1) (.expression e) s = (.ok (some v), s1))
    (hout : s1.stdoutLog = s.stdoutLog)
    (hv : kindName v ≠ "NothingLiteral") :
    executeCodeBlock (fuel + 2) [.expression e] s = (.ok (), s1) ∧
    (executeCodeBlock (fuel + 2) [.expression e] s).2.stdoutLog = s.stdoutLog ∧
    executeModule (fuel + 1) ⟨[.expression e]⟩ s =
      ((.ok (), ⟨[]⟩),
       { s1 with stdoutLog := s1.stdoutLog ++ [convertValueToText v] }) := by
  have hblock : executeCodeBlock (fuel + 2) [.expression e] s = (.ok (), s1) := by
    simp [executeCodeBlock, h]
  refine ⟨hblock, ?_, ?_⟩
  · rw [hblock]; exact hout
  · simp [executeModule, executeAllTopImports, executeModuleStatements, h, hv]

/-- C10 witness: a text literal statement prints nothing from inside a
code block and prints its text when it is a top-level module statement. -/
theorem c10_block_discards_values_module_prints_witness :
    executeCodeBlock 3 [.expression (.value (.textLit "hi"))] emptySt =
      (.ok (), emptySt) ∧
    executeModule 2 ⟨[.expression (.value (.textLit "hi"))]⟩ emptySt =
      ((.ok (), ⟨[]⟩), ⟨[[]], [], ["hi"], []⟩) := by
  have h := c10_block_discards_values_module_prints 1 emptySt emptySt
    (.value (.textLit "hi")) (.textLit "hi") rfl rfl (by decide)
  exact ⟨h.1, by simpa using h.2.2⟩

end QuackScript
